import Mathlib

/-!
# ClawForge governance engine — verification development

Shallow embedding of the client-side governance engine of the ClawForge
repository, together with proofs about it:

* `src/plugin/src/policy/tool-enforcer.ts` — tool-name normalization, group
  expansion, the `before_tool_call` hook (authorize) and `enforcePolicy`;
* `src/plugin/src/audit/audit-logger.ts` — the bounded in-memory audit buffer,
  its failure-path flush, and the load of the persisted buffer;
* `src/plugin/src/connection/connection-state.ts` — the connection state
  machine (`connected / degraded / offline / unauthenticated`);
* `src/plugin/src/heartbeat/kill-switch.ts` — the successful-heartbeat path;
* the token refresh manager (`TokenRefreshManager.refreshWithRetry`).

Stateful TypeScript classes are embedded as structures with explicit state
passing; side effects (audit enqueues, sleeps, log lines) are returned as
explicit lists of emitted effects so that statements about them are
non-vacuous.
-/

namespace ClawForge

/-! ## Shared audit data model (src/plugin/src/types.ts, as used by the core) -/

/-- Audit event types used by the governance core (a TypeScript string union). -/
inductive AuditEventType
  | tool_call_attempt
  | kill_switch_activated
  | session_event
deriving DecidableEq, Repr

/-- Audit outcome values (a TypeScript string union). -/
inductive Outcome
  | allowed
  | blocked
  | error
  | success
deriving DecidableEq, Repr

/--
The parameters the enforcer passes to `auditLogger.enqueue`
(`AuditLoggerEnqueueParams` in audit-logger.ts).  The core only ever passes a
metadata object of the shape `{ reason: string }` (or `undefined`) from the
enforcer, so `metadataReason` models that single field.
-/
structure AuditLoggerEnqueueParams where
  eventType : AuditEventType
  toolName : Option String
  outcome : Outcome
  agentId : Option String
  sessionKey : Option String
  metadataReason : Option String
deriving DecidableEq, Repr

/-! ## Tool enforcer (src/plugin/src/policy/tool-enforcer.ts) -/

/-- `TOOL_NAME_ALIASES` from tool-enforcer.ts (a closed record). -/
def TOOL_NAME_ALIASES : List (String × String) :=
  [("bash", "exec"), ("apply-patch", "apply_patch")]

/-- JavaScript `String.prototype.toLowerCase` on the tool-name alphabet:
lowercase every character.  (Defined over the character list so that it is
structurally recursive and evaluates inside the kernel.) -/
def toLowerStr (s : String) : String :=
  ⟨s.data.map Char.toLower⟩

/-- JavaScript `String.prototype.trim`: strip leading and trailing
whitespace. -/
def trimStr (s : String) : String :=
  ⟨((s.data.dropWhile Char.isWhitespace).reverse.dropWhile
      Char.isWhitespace).reverse⟩

/-- `normalizeToolName` from tool-enforcer.ts: trim, lowercase, alias lookup. -/
def normalizeToolName (name : String) : String :=
  let normalized := toLowerStr (trimStr name)
  match TOOL_NAME_ALIASES.lookup normalized with
  | some aliased => aliased
  | none => normalized

/-- `TOOL_GROUPS` from tool-enforcer.ts: the nine well-known tool groups. -/
def TOOL_GROUPS : List (String × List String) :=
  [("group:memory", ["memory_search", "memory_get"]),
   ("group:web", ["web_search", "web_fetch"]),
   ("group:fs", ["read", "write", "edit", "apply_patch"]),
   ("group:runtime", ["exec", "process"]),
   ("group:sessions",
     ["sessions_list", "sessions_history", "sessions_send",
      "sessions_spawn", "subagents", "session_status"]),
   ("group:ui", ["browser", "canvas"]),
   ("group:automation", ["cron", "gateway"]),
   ("group:messaging", ["message"]),
   ("group:nodes", ["nodes"])]

/--
`expandGroups` from tool-enforcer.ts.  The TypeScript builds a `Set<string>`;
we return the accumulated list, which agrees with the set up to membership
(the only operation the source performs on it is `has`).  Note the `else`
branch of the source: an entry that is not a known group is added verbatim
(`expanded.add(normalized)`), so an unknown `group:<id>` selector becomes a
literal tool name.
-/
def expandGroups (list : List String) : List String :=
  list.flatMap fun entry =>
    let normalized := normalizeToolName entry
    match TOOL_GROUPS.lookup normalized with
    | some group => group
    | none => [normalized]

/-- `OrgPolicy.tools` as the enforcer consumes it: both lists are optional
(the source guards `policy.tools.deny && policy.tools.deny.length > 0`). -/
structure ToolsConfig where
  allow : Option (List String)
  deny : Option (List String)
deriving DecidableEq, Repr

/-- The part of `OrgPolicy` read by the enforcer.  Fields the enforcer never
touches (`version`, `auditLevel`, `fetchedAt`) are omitted. -/
structure OrgPolicy where
  tools : ToolsConfig
deriving DecidableEq, Repr

/-- The offline override values (`"allow" | "cached"` in TypeScript;
`Option OverrideMode` models `... | undefined`). -/
inductive OverrideMode
  | allow
  | cached
deriving DecidableEq, Repr

/-- `ToolEnforcerState` from tool-enforcer.ts. -/
structure ToolEnforcerState where
  policy : Option OrgPolicy
  killSwitchActive : Bool
  killSwitchMessage : Option String
  offlineOverride : Option OverrideMode
deriving DecidableEq, Repr

/-- The hook's result: `undefined` (allow) or `{ block: true, blockReason }`. -/
inductive Decision
  | allow
  | block (blockReason : String)
deriving DecidableEq, Repr

/--
`enforcePolicy` from tool-enforcer.ts (lines 144-214).  `toolName` is the
normalized name, `rawName` the original `event.toolName` used in user-facing
block reasons.  The calls the source makes to `auditLogger.enqueue` are
returned as a list of emitted enqueue parameters, in call order.
-/
def enforcePolicy (policy : Option OrgPolicy) (toolName rawName : String)
    (agentId sessionKey : Option String) (modeReason : Option String) :
    Decision × List AuditLoggerEnqueueParams :=
  match policy with
  | none =>
      (Decision.allow,
       [{ eventType := .tool_call_attempt, toolName := some toolName,
          outcome := .allowed, agentId := agentId, sessionKey := sessionKey,
          metadataReason := some (modeReason.getD "no_policy") }])
  | some policy =>
      let denyHit :=
        match policy.tools.deny with
        | some deny => decide (0 < deny.length) && (expandGroups deny).contains toolName
        | none => false
      if denyHit then
        (Decision.block
           (String.append "ClawForge: Tool \""
             (String.append rawName "\" is blocked by organization policy")),
         [{ eventType := .tool_call_attempt, toolName := some toolName,
            outcome := .blocked, agentId := agentId, sessionKey := sessionKey,
            metadataReason := some
              (match modeReason with
               | some m => String.append "deny_list (" (String.append m ")")
               | none => "deny_list") }])
      else
        let allowMiss :=
          match policy.tools.allow with
          | some allow => decide (0 < allow.length) && !((expandGroups allow).contains toolName)
          | none => false
        if allowMiss then
          (Decision.block
             (String.append "ClawForge: Tool \""
               (String.append rawName
                 "\" is not in the organization's allowed tools list")),
           [{ eventType := .tool_call_attempt, toolName := some toolName,
              outcome := .blocked, agentId := agentId, sessionKey := sessionKey,
              metadataReason := some
                (match modeReason with
                 | some m => String.append "not_in_allowlist (" (String.append m ")")
                 | none => "not_in_allowlist") }])
        else
          (Decision.allow,
           [{ eventType := .tool_call_attempt, toolName := some toolName,
              outcome := .allowed, agentId := agentId, sessionKey := sessionKey,
              metadataReason := modeReason }])

/--
The hook returned by `createToolEnforcerHook` (tool-enforcer.ts lines
97-139), i.e. one `authorize` call: it takes the enforcer state, the raw
`event.toolName` and the context fields, and returns the decision together
with the list of audit enqueues performed (in call order).
-/
def createToolEnforcerHook (state : ToolEnforcerState) (rawToolName : String)
    (agentId sessionKey : Option String) :
    Decision × List AuditLoggerEnqueueParams :=
  let toolName := normalizeToolName rawToolName
  match state.offlineOverride with
  | some OverrideMode.allow =>
      (Decision.allow,
       [{ eventType := .tool_call_attempt, toolName := some toolName,
          outcome := .allowed, agentId := agentId, sessionKey := sessionKey,
          metadataReason := some "offline_allow_mode" }])
  | some OverrideMode.cached =>
      enforcePolicy state.policy toolName rawToolName agentId sessionKey
        (some "offline_cached_mode")
  | none =>
      if state.killSwitchActive then
        (Decision.block
           (state.killSwitchMessage.getD
             "ClawForge: All tool calls blocked by organization kill switch"),
         [{ eventType := .tool_call_attempt, toolName := some toolName,
            outcome := .blocked, agentId := agentId, sessionKey := sessionKey,
            metadataReason := some "kill_switch" }])
      else
        enforcePolicy state.policy toolName rawToolName agentId sessionKey none

/-!
### JavaScript runtime model of the enforcer

The TypeScript type of `enforcePolicy` declares `policy: OrgPolicy | null`
with `tools` a required field, but the policy object reaching the enforcer is
produced by casting parsed JSON, so at run time a malformed policy object may
lack `tools` entirely.  `enforcePolicy` reads `policy.tools.deny` without a
guard and without any try/catch in the hook, so on such a value JavaScript
throws a `TypeError`.  The definitions below embed that runtime semantics:
field access on a possibly-absent `tools` object either yields the typed
result or raises.
-/

/-- A run-time policy value: the `tools` field may be absent (`undefined`). -/
structure OrgPolicyJs where
  tools : Option ToolsConfig
deriving DecidableEq, Repr

/-- A thrown JavaScript error. -/
inductive JsError
  | typeError (msg : String)
deriving DecidableEq, Repr

/-- `ToolEnforcerState` holding a run-time (possibly malformed) policy. -/
structure ToolEnforcerStateJs where
  policy : Option OrgPolicyJs
  killSwitchActive : Bool
  killSwitchMessage : Option String
  offlineOverride : Option OverrideMode
deriving DecidableEq, Repr

/--
`enforcePolicy` under JavaScript runtime semantics.  A non-null policy whose
`tools` field is absent makes the unguarded access `policy.tools.deny`
(tool-enforcer.ts line 166) throw; every other input follows the typed
embedding `enforcePolicy`.
-/
def enforcePolicyJs (policy : Option OrgPolicyJs) (toolName rawName : String)
    (agentId sessionKey : Option String) (modeReason : Option String) :
    Except JsError (Decision × List AuditLoggerEnqueueParams) :=
  match policy with
  | none => .ok (enforcePolicy none toolName rawName agentId sessionKey modeReason)
  | some policy =>
      match policy.tools with
      | none =>
          .error (.typeError "Cannot read properties of undefined (reading 'deny')")
      | some tools =>
          .ok (enforcePolicy (some { tools := tools }) toolName rawName agentId
                sessionKey modeReason)

/-- The hook (`authorize`) under JavaScript runtime semantics. -/
def createToolEnforcerHookJs (state : ToolEnforcerStateJs) (rawToolName : String)
    (agentId sessionKey : Option String) :
    Except JsError (Decision × List AuditLoggerEnqueueParams) :=
  let toolName := normalizeToolName rawToolName
  match state.offlineOverride with
  | some OverrideMode.allow =>
      .ok (Decision.allow,
        [{ eventType := .tool_call_attempt, toolName := some toolName,
           outcome := .allowed, agentId := agentId, sessionKey := sessionKey,
           metadataReason := some "offline_allow_mode" }])
  | some OverrideMode.cached =>
      enforcePolicyJs state.policy toolName rawToolName agentId sessionKey
        (some "offline_cached_mode")
  | none =>
      if state.killSwitchActive then
        .ok (Decision.block
           (state.killSwitchMessage.getD
             "ClawForge: All tool calls blocked by organization kill switch"),
         [{ eventType := .tool_call_attempt, toolName := some toolName,
            outcome := .blocked, agentId := agentId, sessionKey := sessionKey,
            metadataReason := some "kill_switch" }])
      else
        enforcePolicyJs state.policy toolName rawToolName agentId sessionKey none

/-! ## Audit logger buffer (src/plugin/src/audit/audit-logger.ts)

The logger's buffer operations are embedded as functions on `List AuditEvent`
(oldest first, as in the TypeScript array).  Timestamps, log lines and the
fire-and-forget flush trigger do not affect the buffer contents modelled here
and are noted where they are abstracted.
-/

/-- `AuditLevel` (`"full" | "metadata" | "off"`). -/
inductive AuditLevel
  | full
  | metadata
  | off
deriving DecidableEq, Repr

/-- `AuditEvent` as built by `AuditLogger.enqueue` (audit-logger.ts lines
130-140).  `metadataReason` models the metadata object the core passes
(a `{ reason }` record), kept only when the audit level is `full`. -/
structure AuditEvent where
  userId : String
  orgId : String
  agentId : Option String
  sessionKey : Option String
  eventType : AuditEventType
  toolName : Option String
  timestamp : Nat
  outcome : Outcome
  metadataReason : Option String
deriving DecidableEq, Repr

/-- `AuditLogger.enforceBufferLimit` (audit-logger.ts lines 224-232): if the
buffer exceeds `maxBufferSize`, `splice(0, length - maxBufferSize)` removes
the oldest events. -/
def enforceBufferLimit (maxBufferSize : Nat) (buffer : List AuditEvent) :
    List AuditEvent :=
  if buffer.length > maxBufferSize then
    buffer.drop (buffer.length - maxBufferSize)
  else
    buffer

/-- The event construction inside `enqueue` (audit-logger.ts lines 130-140):
stamp `userId`, `orgId`, `timestamp := Date.now()`; keep metadata only when
the level is `full`. -/
def buildEvent (userId orgId : String) (now : Nat) (auditLevel : AuditLevel)
    (params : AuditLoggerEnqueueParams) : AuditEvent :=
  { userId := userId, orgId := orgId, agentId := params.agentId,
    sessionKey := params.sessionKey, eventType := params.eventType,
    toolName := params.toolName, timestamp := now, outcome := params.outcome,
    metadataReason := if auditLevel = .full then params.metadataReason else none }

/-- The buffer update performed by a non-`off` `enqueue` (audit-logger.ts
lines 142-151): push the event, then drop the oldest events when the length
exceeds `maxBufferSize`.  (The capacity warning and the fire-and-forget flush
trigger at `batchSize` do not change the buffer synchronously beyond this.) -/
def enqueueBuffer (maxBufferSize : Nat) (buffer : List AuditEvent)
    (event : AuditEvent) : List AuditEvent :=
  let buffer := buffer ++ [event]
  if buffer.length > maxBufferSize then
    buffer.drop (buffer.length - maxBufferSize)
  else
    buffer

/-- `AuditLogger.enqueue` (audit-logger.ts lines 125-170): a no-op when the
audit level is `off`, otherwise build the event and push it with the bound
enforced. -/
def enqueue (auditLevel : AuditLevel) (maxBufferSize : Nat)
    (userId orgId : String) (now : Nat) (buffer : List AuditEvent)
    (params : AuditLoggerEnqueueParams) : List AuditEvent :=
  if auditLevel = .off then
    buffer
  else
    enqueueBuffer maxBufferSize buffer (buildEvent userId orgId now auditLevel params)

/--
The failure path of `AuditLogger.flush` (audit-logger.ts lines 200-205 and
213-218).  At flush start the whole buffer is detached (`splice(0)`) into
`batch`; while the HTTP request is in flight, concurrently enqueued events
(`arrivals`) land in the now-empty buffer.  On a non-2xx response or a thrown
request error the source runs `this.buffer.unshift(...batch)` — so the buffer
becomes `batch ++ arrivals` — then `enforceBufferLimit()` and
`persistBuffer(this.buffer)`.  The result is the pair
`(in-memory buffer, persisted file contents)`.
-/
def flushFailure (maxBufferSize : Nat) (batch arrivals : List AuditEvent) :
    List AuditEvent × List AuditEvent :=
  let buffer := enforceBufferLimit maxBufferSize (batch ++ arrivals)
  (buffer, buffer)

/-- `AuditLogger.loadPersistedBuffer` (audit-logger.ts lines 252-268), run at
construction on an empty buffer: parse each line (`none` models a malformed
line, skipped silently), append the parsed events, then enforce the limit. -/
def loadPersistedBuffer (maxBufferSize : Nat)
    (lines : List (Option AuditEvent)) : List AuditEvent :=
  enforceBufferLimit maxBufferSize (lines.filterMap id)

/-! ## Connection state machine (src/plugin/src/connection/connection-state.ts)

The mutable fields of `ConnectionStateManager` relevant to its transitions:
`_state` and `_consecutiveFailures`, plus the read-only `failureThreshold`
fixed at construction.  `lastSuccessfulHeartbeat` timestamps, logging and the
transition audit events do not influence the transitions and are omitted.
-/

/-- `ConnectionState` from connection-state.ts. -/
inductive ConnectionState
  | connected
  | degraded
  | offline
  | unauthenticated
deriving DecidableEq, Repr

/-- The state of a `ConnectionStateManager`. -/
structure ConnectionStateManager where
  state : ConnectionState
  consecutiveFailures : Nat
  failureThreshold : Nat
deriving DecidableEq, Repr

/-- The manager right after construction (connection-state.ts lines 39-46):
state `connected`, zero failures. -/
def initialManager (failureThreshold : Nat) : ConnectionStateManager :=
  { state := .connected, consecutiveFailures := 0,
    failureThreshold := failureThreshold }

/-- `recordSuccess` (connection-state.ts lines 92-102): reset the failure
count and move to `connected`. -/
def recordSuccess (s : ConnectionStateManager) : ConnectionStateManager :=
  { s with state := .connected, consecutiveFailures := 0 }

/-- `recordFailure` (connection-state.ts lines 107-121): increment the
failure count; `offline` once it reaches the threshold, else `degraded`. -/
def recordFailure (s : ConnectionStateManager) : ConnectionStateManager :=
  let failures := s.consecutiveFailures + 1
  { s with consecutiveFailures := failures,
           state := if failures ≥ s.failureThreshold then .offline else .degraded }

/-- `setUnauthenticated` (connection-state.ts lines 126-133). -/
def setUnauthenticated (s : ConnectionStateManager) : ConnectionStateManager :=
  { s with state := .unauthenticated }

/-- One public mutating operation of the manager. -/
inductive FSMOp
  | recordSuccess
  | recordFailure
  | setUnauthenticated
deriving DecidableEq, Repr

/-- Apply one operation. -/
def applyOp (s : ConnectionStateManager) : FSMOp → ConnectionStateManager
  | .recordSuccess => recordSuccess s
  | .recordFailure => recordFailure s
  | .setUnauthenticated => setUnauthenticated s

/-- Run a sequence of operations from a given manager state. -/
def runOps (s : ConnectionStateManager) (ops : List FSMOp) :
    ConnectionStateManager :=
  ops.foldl applyOp s

/-! ## Heartbeat success path (src/plugin/src/heartbeat/kill-switch.ts) -/

/-- The heartbeat response body the success handler reads
(`policyVersion` is not consumed by `KillSwitchManager.heartbeat`). -/
structure HeartbeatResponse where
  killSwitch : Bool
  killSwitchMessage : Option String
  refreshPolicyNow : Bool
deriving DecidableEq, Repr

/--
The 2xx branch of `KillSwitchManager.heartbeat` (kill-switch.ts lines
93-125): `recordSuccess` on the connection manager; clear any offline
override (the source clears it inside a truthiness check, which leaves it
`undefined` in every case); mirror the response's kill-switch flag and
message into the enforcer state.  The `onPolicyRefreshNeeded` callback and
log lines have no effect on these states.
-/
def heartbeatSuccess (conn : ConnectionStateManager) (es : ToolEnforcerState)
    (data : HeartbeatResponse) : ConnectionStateManager × ToolEnforcerState :=
  let conn := recordSuccess conn
  let es := { es with offlineOverride := none }
  let es :=
    if data.killSwitch then
      { es with killSwitchActive := true,
                killSwitchMessage := data.killSwitchMessage }
    else
      { es with killSwitchActive := false, killSwitchMessage := none }
  (conn, es)

/-! ## Token refresh retry (TokenRefreshManager.refreshWithRetry)

`refreshWithRetry` loops `attempt` from `0` below `MAX_RETRIES = 3`.  Each
attempt either succeeds (persist the session, replace it, notify consumers,
log at info, return) or fails, in which case it logs a warning with the
computed delay `INITIAL_RETRY_DELAY_MS * 2 ** attempt` and — only when
`attempt < MAX_RETRIES - 1` — sleeps that delay before the next attempt.
After the loop (all attempts failed) it logs at error level.  The manager
holds no reference to the `ConnectionStateManager`, so it can never set the
`unauthenticated` state; the effect vocabulary still contains that transition
so the statement is expressible.
-/

/-- `MAX_RETRIES` from the token refresh manager. -/
def MAX_RETRIES : Nat := 3

/-- `INITIAL_RETRY_DELAY_MS` from the token refresh manager. -/
def INITIAL_RETRY_DELAY_MS : Nat := 5000

/-- `delayMs = INITIAL_RETRY_DELAY_MS * Math.pow(2, attempt)`. -/
def retryDelayMs (attempt : Nat) : Nat :=
  INITIAL_RETRY_DELAY_MS * 2 ^ attempt

/-- An observable effect of one refresh opportunity. -/
inductive RefreshEffect
  | sleep (ms : Nat)
  | saveSession
  | notifyTokenRefreshed
  | logInfo
  | logWarn
  | logError
  | fsmSetUnauthenticated
deriving DecidableEq, Repr

/--
The retry loop of `refreshWithRetry`, with `oracle attempt = true` meaning
`refreshSessionToken` succeeds on that attempt.  `remaining` is
`MAX_RETRIES - attempt`; the loop is entered with `remaining = MAX_RETRIES`.
Returns the emitted effect trace, whether a refresh succeeded, and the number
of attempts made.
-/
def refreshLoop (oracle : Nat → Bool) :
    Nat → Nat → List RefreshEffect × Bool × Nat
  | _, 0 => ([], false, 0)
  | attempt, 1 =>
      if oracle attempt then
        ([.saveSession, .notifyTokenRefreshed, .logInfo], true, 1)
      else
        ([.logWarn], false, 1)
  | attempt, remaining + 2 =>
      if oracle attempt then
        ([.saveSession, .notifyTokenRefreshed, .logInfo], true, 1)
      else
        let rest := refreshLoop oracle (attempt + 1) (remaining + 1)
        (.logWarn :: .sleep (retryDelayMs attempt) :: rest.1,
         rest.2.1, rest.2.2 + 1)

/-- `refreshWithRetry` (part_001 lines 102-139): run the loop from attempt 0;
when every attempt failed, log at error level after the loop. -/
def refreshWithRetry (oracle : Nat → Bool) : List RefreshEffect × Bool × Nat :=
  let r := refreshLoop oracle 0 MAX_RETRIES
  if r.2.1 then r else (r.1 ++ [.logError], r.2.1, r.2.2)

/-- The sleep durations occurring in a trace, in order. -/
def sleepsOf (trace : List RefreshEffect) : List Nat :=
  trace.filterMap fun e =>
    match e with
    | .sleep ms => some ms
    | _ => none

/-! ## Helper lemmas -/

/-- `enforceBufferLimit` only ever removes a prefix (the oldest events). -/
theorem enforceBufferLimit_suffix (maxBufferSize : Nat)
    (buffer : List AuditEvent) :
    enforceBufferLimit maxBufferSize buffer <:+ buffer := by
  unfold enforceBufferLimit
  split
  · exact List.drop_suffix _ _
  · exact List.suffix_refl _

/-- The buffer is within the bound after `enforceBufferLimit`. -/
theorem enforceBufferLimit_length_le (maxBufferSize : Nat)
    (buffer : List AuditEvent) :
    (enforceBufferLimit maxBufferSize buffer).length ≤ maxBufferSize := by
  unfold enforceBufferLimit
  split
  · rename_i h
    simp only [List.length_drop]
    omega
  · rename_i h
    omega

/-- `enforceBufferLimit` is the identity when the buffer already fits. -/
theorem enforceBufferLimit_eq_of_le {maxBufferSize : Nat}
    {buffer : List AuditEvent} (h : buffer.length ≤ maxBufferSize) :
    enforceBufferLimit maxBufferSize buffer = buffer := by
  unfold enforceBufferLimit
  rw [if_neg]
  omega

/-- `enqueueBuffer` is the bound enforced on the buffer with the new event
appended. -/
theorem enqueueBuffer_eq (maxBufferSize : Nat) (buffer : List AuditEvent)
    (event : AuditEvent) :
    enqueueBuffer maxBufferSize buffer event
      = enforceBufferLimit maxBufferSize (buffer ++ [event]) := rfl

/-- A sample audit event, used by concrete witnesses. -/
def sampleEvent (t : Nat) : AuditEvent :=
  { userId := "user-1", orgId := "org-1", agentId := none, sessionKey := none,
    eventType := .tool_call_attempt, toolName := some "read", timestamp := t,
    outcome := .allowed, metadataReason := none }

/-- Sample enqueue parameters, used by concrete witnesses. -/
def sampleParams : AuditLoggerEnqueueParams :=
  { eventType := .tool_call_attempt, toolName := some "read",
    outcome := .allowed, agentId := none, sessionKey := none,
    metadataReason := none }

/-! ## Claim theorems -/

/--
Claim C1: the claim says an unknown `group:<id>` selector contributes no tool
names to a policy list expansion, so no tool call is ever blocked or admitted
because of one.  The code contradicts this: `expandGroups` adds the unknown
selector verbatim as a literal tool name, so under the policy
`deny = ["group:custom"]` a tool call whose (normalized) name is the literal
string `group:custom` is blocked by the deny list — a block caused entirely
by the unknown group selector.
-/
theorem unknown_group_selector_blocks_literal_tool :
    expandGroups ["group:custom"] = ["group:custom"]
    ∧ createToolEnforcerHook
        { policy := some { tools := { allow := none, deny := some ["group:custom"] } },
          killSwitchActive := false, killSwitchMessage := none,
          offlineOverride := none }
        "group:custom" none none
      = (Decision.block
           "ClawForge: Tool \"group:custom\" is blocked by organization policy",
         [{ eventType := .tool_call_attempt, toolName := some "group:custom",
            outcome := .blocked, agentId := none, sessionKey := none,
            metadataReason := some "deny_list" }]) :=
  ⟨rfl, rfl⟩

/--
Claim C2 (counterexample): the claim says that whenever the kill switch is
active and the offline override is not `allow` (explicitly including
`cached`), `authorize` never returns an allow decision.  The code skips the
kill-switch check entirely when the override is `cached`
(tool-enforcer.ts lines 116-120), so with the kill switch active, override
`cached` and no cached policy, the call returns allow.
-/
theorem kill_switch_cached_override_allows :
    (({ policy := none, killSwitchActive := true,
        killSwitchMessage := some "freeze",
        offlineOverride := some OverrideMode.cached } : ToolEnforcerState).killSwitchActive
       = true)
    ∧ (({ policy := none, killSwitchActive := true,
          killSwitchMessage := some "freeze",
          offlineOverride := some OverrideMode.cached } : ToolEnforcerState).offlineOverride
        ≠ some OverrideMode.allow)
    ∧ (createToolEnforcerHook
         { policy := none, killSwitchActive := true,
           killSwitchMessage := some "freeze",
           offlineOverride := some OverrideMode.cached }
         "read" none none).1
      = Decision.allow :=
  ⟨rfl, by decide, rfl⟩

/--
Claim C2 (amended): whenever the kill switch is active and no offline
override is set (`offlineOverride = undefined`), `authorize` never returns an
allow decision — every such call blocks.
-/
theorem kill_switch_no_override_never_allows (state : ToolEnforcerState)
    (rawToolName : String) (agentId sessionKey : Option String)
    (hks : state.killSwitchActive = true)
    (hov : state.offlineOverride = none) :
    (createToolEnforcerHook state rawToolName agentId sessionKey).1
      ≠ Decision.allow := by
  obtain ⟨pol, ks, ksm, ov⟩ := state
  simp only at hks hov
  subst hks
  subst hov
  simp [createToolEnforcerHook]

/-- Witness for the amended claim C2 at a concrete state. -/
theorem kill_switch_no_override_never_allows_witness :
    (({ policy := none, killSwitchActive := true, killSwitchMessage := none,
        offlineOverride := none } : ToolEnforcerState).killSwitchActive = true)
    ∧ (({ policy := none, killSwitchActive := true, killSwitchMessage := none,
          offlineOverride := none } : ToolEnforcerState).offlineOverride = none)
    ∧ (createToolEnforcerHook
         { policy := none, killSwitchActive := true, killSwitchMessage := none,
           offlineOverride := none } "read" none none).1 ≠ Decision.allow :=
  ⟨rfl, rfl,
   kill_switch_no_override_never_allows _ "read" none none rfl rfl⟩

/--
Claim C3: the claim says `authorize` is total and never throws, and a
malformed or absent policy yields allow with reason `no_policy`.  Absent
(null) policies do yield allow with reason `no_policy`, but under JavaScript
runtime semantics a malformed policy object that lacks the `tools` field
makes the unguarded access `policy.tools.deny` throw a `TypeError` — the hook
has no try/catch, so the exception escapes to the host instead of failing
open.
-/
theorem malformed_policy_throws_type_error :
    createToolEnforcerHookJs
        { policy := some { tools := none }, killSwitchActive := false,
          killSwitchMessage := none, offlineOverride := none }
        "read" none none
      = .error (.typeError "Cannot read properties of undefined (reading 'deny')")
    ∧ createToolEnforcerHookJs
        { policy := none, killSwitchActive := false,
          killSwitchMessage := none, offlineOverride := none }
        "read" none none
      = .ok (Decision.allow,
         [{ eventType := .tool_call_attempt, toolName := some "read",
            outcome := .allowed, agentId := none, sessionKey := none,
            metadataReason := some "no_policy" }]) :=
  ⟨rfl, rfl⟩

/-- `enforcePolicy` emits exactly one `tool_call_attempt` event, with outcome
`allowed` on allow decisions and `blocked` on block decisions. -/
theorem enforcePolicy_emits_one (policy : Option OrgPolicy)
    (toolName rawName : String) (agentId sessionKey : Option String)
    (modeReason : Option String) :
    ∃ e, (enforcePolicy policy toolName rawName agentId sessionKey modeReason).2 = [e]
      ∧ e.eventType = AuditEventType.tool_call_attempt
      ∧ (e.outcome = Outcome.allowed
          ↔ (enforcePolicy policy toolName rawName agentId sessionKey modeReason).1
              = Decision.allow)
      ∧ (e.outcome = Outcome.blocked
          ↔ (enforcePolicy policy toolName rawName agentId sessionKey modeReason).1
              ≠ Decision.allow) := by
  cases policy with
  | none => exact ⟨_, rfl, rfl, by simp [enforcePolicy], by simp [enforcePolicy]⟩
  | some p =>
    simp only [enforcePolicy]
    split
    · exact ⟨_, rfl, rfl, by simp, by simp⟩
    · split
      · exact ⟨_, rfl, rfl, by simp, by simp⟩
      · exact ⟨_, rfl, rfl, by simp, by simp⟩

/--
Claim C4: every `authorize` call enqueues exactly one audit event, of type
`tool_call_attempt`, whose outcome is `allowed` exactly when the call returns
an allow decision and `blocked` exactly when it returns a block decision.
(The enforcer hands the event to `AuditLogger.enqueue` exactly once on every
path.)
-/
theorem authorize_emits_exactly_one_audit (state : ToolEnforcerState)
    (rawToolName : String) (agentId sessionKey : Option String) :
    ∃ e, (createToolEnforcerHook state rawToolName agentId sessionKey).2 = [e]
      ∧ e.eventType = AuditEventType.tool_call_attempt
      ∧ (e.outcome = Outcome.allowed
          ↔ (createToolEnforcerHook state rawToolName agentId sessionKey).1
              = Decision.allow)
      ∧ (e.outcome = Outcome.blocked
          ↔ (createToolEnforcerHook state rawToolName agentId sessionKey).1
              ≠ Decision.allow) := by
  obtain ⟨pol, ks, ksm, ov⟩ := state
  cases ov with
  | none =>
    cases ks with
    | true =>
      exact ⟨_, rfl, rfl, by simp [createToolEnforcerHook],
             by simp [createToolEnforcerHook]⟩
    | false =>
      simpa [createToolEnforcerHook] using
        enforcePolicy_emits_one pol (normalizeToolName rawToolName) rawToolName
          agentId sessionKey none
  | some m =>
    cases m with
    | allow =>
      exact ⟨_, rfl, rfl, by simp [createToolEnforcerHook],
             by simp [createToolEnforcerHook]⟩
    | cached =>
      simpa [createToolEnforcerHook] using
        enforcePolicy_emits_one pol (normalizeToolName rawToolName) rawToolName
          agentId sessionKey (some "offline_cached_mode")

/--
Claim C5: on a failed flush the detached batch is prepended back in front of
the events that arrived while the request was in flight (preserving original
order exactly whenever everything fits), the capacity limit is enforced by
dropping only oldest events (the result is a suffix of `batch ++ arrivals`),
and the resulting buffer is what gets re-persisted to disk.
-/
theorem flush_failure_requeues_in_order (maxBufferSize : Nat)
    (batch arrivals : List AuditEvent) :
    (flushFailure maxBufferSize batch arrivals).2
        = (flushFailure maxBufferSize batch arrivals).1
    ∧ (flushFailure maxBufferSize batch arrivals).1 <:+ batch ++ arrivals
    ∧ ((flushFailure maxBufferSize batch arrivals).1).length ≤ maxBufferSize
    ∧ ((batch ++ arrivals).length ≤ maxBufferSize →
        (flushFailure maxBufferSize batch arrivals).1 = batch ++ arrivals) := by
  refine ⟨rfl, ?_, ?_, ?_⟩
  · exact enforceBufferLimit_suffix _ _
  · exact enforceBufferLimit_length_le _ _
  · intro h
    exact enforceBufferLimit_eq_of_le h

/-- Witness for claim C5 at a concrete failed flush that fits in capacity. -/
theorem flush_failure_requeues_in_order_witness :
    ([sampleEvent 1, sampleEvent 2] ++ [sampleEvent 3]).length ≤ 10
    ∧ (flushFailure 10 [sampleEvent 1, sampleEvent 2] [sampleEvent 3]).1
        = [sampleEvent 1, sampleEvent 2] ++ [sampleEvent 3] :=
  ⟨by decide,
   (flush_failure_requeues_in_order 10 [sampleEvent 1, sampleEvent 2]
      [sampleEvent 3]).2.2.2 (by decide)⟩

/--
Claim C6: the in-memory audit buffer never exceeds `maxAuditBufferSize`:
after every `enqueue` (starting from a bounded buffer), after reinserting a
failed batch in `flush`, and after loading the persisted buffer from disk at
construction; and on overflow it is the oldest events that are dropped (the
surviving buffer is a suffix of what it would have been unbounded).
-/
theorem audit_buffer_bounded :
    (∀ (auditLevel : AuditLevel) (maxBufferSize : Nat) (userId orgId : String)
       (now : Nat) (buffer : List AuditEvent)
       (params : AuditLoggerEnqueueParams),
       buffer.length ≤ maxBufferSize →
       (enqueue auditLevel maxBufferSize userId orgId now buffer params).length
         ≤ maxBufferSize)
    ∧ (∀ (maxBufferSize : Nat) (batch arrivals : List AuditEvent),
        ((flushFailure maxBufferSize batch arrivals).1).length ≤ maxBufferSize)
    ∧ (∀ (maxBufferSize : Nat) (lines : List (Option AuditEvent)),
        (loadPersistedBuffer maxBufferSize lines).length ≤ maxBufferSize)
    ∧ (∀ (maxBufferSize : Nat) (buffer : List AuditEvent) (event : AuditEvent),
        enqueueBuffer maxBufferSize buffer event <:+ buffer ++ [event])
    ∧ (∀ (maxBufferSize : Nat) (buffer : List AuditEvent),
        enforceBufferLimit maxBufferSize buffer <:+ buffer) := by
  refine ⟨?_, ?_, ?_, ?_, ?_⟩
  · intro auditLevel maxBufferSize userId orgId now buffer params h
    unfold enqueue
    split
    · exact h
    · rw [enqueueBuffer_eq]
      exact enforceBufferLimit_length_le _ _
  · intro maxBufferSize batch arrivals
    exact enforceBufferLimit_length_le _ _
  · intro maxBufferSize lines
    exact enforceBufferLimit_length_le _ _
  · intro maxBufferSize buffer event
    rw [enqueueBuffer_eq]
    exact enforceBufferLimit_suffix _ _
  · intro maxBufferSize buffer
    exact enforceBufferLimit_suffix _ _

/-- Witness for claim C6 at a concrete enqueue on a full buffer. -/
theorem audit_buffer_bounded_witness :
    ([sampleEvent 1, sampleEvent 2] : List AuditEvent).length ≤ 2
    ∧ (enqueue AuditLevel.metadata 2 "user-1" "org-1" 7
        [sampleEvent 1, sampleEvent 2] sampleParams).length ≤ 2 :=
  ⟨by decide,
   audit_buffer_bounded.1 AuditLevel.metadata 2 "user-1" "org-1" 7
     [sampleEvent 1, sampleEvent 2] sampleParams (by decide)⟩

/-- Every operation preserves the read-only `failureThreshold`. -/
theorem applyOp_preserves_threshold (s : ConnectionStateManager) (op : FSMOp) :
    (applyOp s op).failureThreshold = s.failureThreshold := by
  cases op <;> rfl

/-- Running any operation sequence preserves the `failureThreshold`. -/
theorem runOps_preserves_threshold (ops : List FSMOp)
    (s : ConnectionStateManager) :
    (runOps s ops).failureThreshold = s.failureThreshold := by
  induction ops generalizing s with
  | nil => rfl
  | cons op ops ih =>
    rw [show runOps s (op :: ops) = runOps (applyOp s op) ops from rfl, ih,
      applyOp_preserves_threshold]

/-- One step preserves the invariant `offline → failures ≥ threshold`. -/
theorem offline_invariant_step (s : ConnectionStateManager) (op : FSMOp)
    (h : s.state = ConnectionState.offline →
         s.failureThreshold ≤ s.consecutiveFailures) :
    (applyOp s op).state = ConnectionState.offline →
    (applyOp s op).failureThreshold ≤ (applyOp s op).consecutiveFailures := by
  cases op with
  | recordSuccess =>
    intro hst
    simp [applyOp, recordSuccess] at hst
  | recordFailure =>
    intro hst
    simp only [applyOp, recordFailure] at hst ⊢
    by_cases hth : s.consecutiveFailures + 1 ≥ s.failureThreshold
    · simpa using hth
    · simp [hth] at hst
  | setUnauthenticated =>
    intro hst
    simp [applyOp, setUnauthenticated] at hst

/-- The invariant `offline → failures ≥ threshold` is preserved by any
operation sequence. -/
theorem runOps_offline_invariant (ops : List FSMOp)
    (s : ConnectionStateManager)
    (h : s.state = ConnectionState.offline →
         s.failureThreshold ≤ s.consecutiveFailures) :
    (runOps s ops).state = ConnectionState.offline →
    (runOps s ops).failureThreshold ≤ (runOps s ops).consecutiveFailures := by
  induction ops generalizing s with
  | nil => exact h
  | cons op ops ih => exact ih (applyOp s op) (offline_invariant_step s op h)

/--
Claim C7: for every sequence of `recordSuccess` / `recordFailure` /
`setUnauthenticated` operations starting from the initial `connected` state,
whenever the state is `offline` the consecutive-failure counter is at least
the configured failure threshold.
-/
theorem connection_offline_ge_threshold (failureThreshold : Nat)
    (ops : List FSMOp)
    (h : (runOps (initialManager failureThreshold) ops).state
           = ConnectionState.offline) :
    failureThreshold
      ≤ (runOps (initialManager failureThreshold) ops).consecutiveFailures := by
  have hinv := runOps_offline_invariant ops (initialManager failureThreshold)
    (by intro hc; simp [initialManager] at hc) h
  rw [runOps_preserves_threshold] at hinv
  exact hinv

/-- Witness for claim C7: with threshold 1, one failure reaches `offline`. -/
theorem connection_offline_ge_threshold_witness :
    (runOps (initialManager 1) [FSMOp.recordFailure]).state
        = ConnectionState.offline
    ∧ 1 ≤ (runOps (initialManager 1) [FSMOp.recordFailure]).consecutiveFailures :=
  ⟨by decide, connection_offline_ge_threshold 1 [FSMOp.recordFailure] (by decide)⟩

/--
Claim C8: after the 2xx branch of a heartbeat tick — for every prior
connection state, enforcer state and response body — the connection state is
`connected`, the consecutive-failure counter is 0, and the offline override
is cleared.
-/
theorem heartbeat_success_resets (conn : ConnectionStateManager)
    (es : ToolEnforcerState) (data : HeartbeatResponse) :
    (heartbeatSuccess conn es data).1.state = ConnectionState.connected
    ∧ (heartbeatSuccess conn es data).1.consecutiveFailures = 0
    ∧ (heartbeatSuccess conn es data).2.offlineOverride = none := by
  unfold heartbeatSuccess recordSuccess
  split <;> exact ⟨rfl, rfl, rfl⟩

/--
Claim C10: `recordFailure` ignores the current state, so from
`unauthenticated` it moves to `degraded` when the incremented failure count
is still below the threshold and to `offline` otherwise — never staying
`unauthenticated`.
-/
theorem record_failure_exits_unauthenticated (s : ConnectionStateManager)
    (hs : s.state = ConnectionState.unauthenticated) :
    (s.consecutiveFailures + 1 < s.failureThreshold →
       (recordFailure s).state = ConnectionState.degraded)
    ∧ (s.failureThreshold ≤ s.consecutiveFailures + 1 →
       (recordFailure s).state = ConnectionState.offline)
    ∧ (recordFailure s).state ≠ ConnectionState.unauthenticated := by
  refine ⟨fun hlt => ?_, fun hge => ?_, ?_⟩
  · have hth : ¬ (s.consecutiveFailures + 1 ≥ s.failureThreshold) := by omega
    simp [recordFailure, hth]
  · simp [recordFailure, hge]
  · by_cases hth : s.consecutiveFailures + 1 ≥ s.failureThreshold <;>
      simp [recordFailure, hth]

/-- Witness for claim C10 at a concrete unauthenticated manager. -/
theorem record_failure_exits_unauthenticated_witness :
    (({ state := .unauthenticated, consecutiveFailures := 0,
        failureThreshold := 5 } : ConnectionStateManager).state
       = ConnectionState.unauthenticated)
    ∧ 0 + 1 < 5
    ∧ (recordFailure
         { state := .unauthenticated, consecutiveFailures := 0,
           failureThreshold := 5 }).state = ConnectionState.degraded :=
  ⟨rfl, by decide,
   (record_failure_exits_unauthenticated
      { state := .unauthenticated, consecutiveFailures := 0,
        failureThreshold := 5 } rfl).1 (by decide)⟩

/--
Claim C9: each refresh opportunity makes at most `MAX_RETRIES = 3` attempts;
the delays slept between consecutive attempts follow the exponential backoff
schedule 5 s, 10 s, 20 s (`5000 * 2 ^ attempt`; with three attempts at most
the first two gaps occur, so the slept delays are always a prefix of that
schedule); when all attempts fail the manager logs at error level; and it
never transitions the connection FSM to `unauthenticated` (it holds no
reference to the manager at all).
-/
theorem refresh_retry_schedule (oracle : Nat → Bool) :
    (refreshWithRetry oracle).2.2 ≤ MAX_RETRIES
    ∧ sleepsOf (refreshWithRetry oracle).1
        <+: [retryDelayMs 0, retryDelayMs 1, retryDelayMs 2]
    ∧ sleepsOf (refreshWithRetry oracle).1 <+: [5000, 10000, 20000]
    ∧ ((refreshWithRetry oracle).2.1 = false →
        RefreshEffect.logError ∈ (refreshWithRetry oracle).1)
    ∧ RefreshEffect.fsmSetUnauthenticated ∉ (refreshWithRetry oracle).1 := by
  cases h0 : oracle 0 <;> cases h1 : oracle 1 <;> cases h2 : oracle 2 <;>
    simp [refreshWithRetry, refreshLoop, MAX_RETRIES, h0, h1, h2, sleepsOf,
      retryDelayMs, INITIAL_RETRY_DELAY_MS]

/-- Witness for claim C9: when every attempt fails, the opportunity sleeps
5 s then 10 s, makes exactly 3 attempts, and logs at error level. -/
theorem refresh_retry_schedule_witness :
    (refreshWithRetry (fun _ => false)).2.1 = false
    ∧ RefreshEffect.logError ∈ (refreshWithRetry (fun _ => false)).1
    ∧ sleepsOf (refreshWithRetry (fun _ => false)).1 = [5000, 10000]
    ∧ (refreshWithRetry (fun _ => false)).2.2 = 3 :=
  ⟨by decide,
   (refresh_retry_schedule (fun _ => false)).2.2.2.1 (by decide),
   by decide, by decide⟩

end ClawForge
